import Mathlib

/-!
Verification of the test-result ingestion and reporting pipeline of the
BrowserAutomation repository (`my_agent/agent.py`).

The embedding is shallow: the Python functions `repo_root`,
`generate_test_suites_file`, `read_latest_report_summary`,
`ensure_reports_dir` and `write_report` become Lean functions over an
explicit filesystem state `FS`.  Python's `json.loads` is modelled by an
executable JSON parser; Python dictionary/iteration semantics (`dict.get`
raising `AttributeError` on non-dicts, `for` raising `TypeError` on
non-iterables, `bool(...)` truthiness, `str(...)` rendering) are modelled
by `pyGet`, `pyIter`, `pyTruthy` and `pyStr`.  Python exceptions are
modelled with `Except`; the `try`/`except` wrapper of `write_report` is
the outer `match` converting every raised error into a structured
failure result.  Wall-clock time is passed in explicitly as the `now`
argument; file modification times are tracked in `FS.mtimes`.
-/

/-- Model of a parsed Python JSON value (result of `json.loads`). -/
inductive Json where
  | null : Json
  | bool (b : Bool) : Json
  | num (n : Int) : Json
  | str (s : String) : Json
  | arr (elems : List Json) : Json
  | obj (fields : List (String × Json)) : Json
deriving Repr

/-- Opening curly brace character (written numerically). -/
def lbrace : Char := Char.ofNat 123

/-- Closing curly brace character (written numerically). -/
def rbrace : Char := Char.ofNat 125

/-- Double-quote character. -/
def dquote : Char := Char.ofNat 34

/-- Single-quote character. -/
def squote : Char := Char.ofNat 39

/-- Skip JSON whitespace. -/
def skipWs : List Char → List Char
  | [] => []
  | c :: cs => if c = ' ' ∨ c = '\n' ∨ c = '\t' ∨ c = '\r' then skipWs cs else c :: cs

/-- Parse the body of a JSON string literal (after the opening quote),
returning the decoded characters and the remaining input. -/
def parseStringChars : List Char → Option (List Char × List Char)
  | [] => none
  | c :: cs =>
    if c = dquote then some ([], cs)
    else if c = '\\' then
      match cs with
      | [] => none
      | e :: cs2 =>
        let dec : Option Char :=
          if e = dquote then some dquote
          else if e = '\\' then some '\\'
          else if e = '/' then some '/'
          else if e = 'n' then some '\n'
          else if e = 't' then some '\t'
          else if e = 'r' then some '\r'
          else if e = 'b' then some (Char.ofNat 8)
          else if e = 'f' then some (Char.ofNat 12)
          else none
        match dec with
        | none => none
        | some d =>
          match parseStringChars cs2 with
          | none => none
          | some (out, rest) => some (d :: out, rest)
    else
      match parseStringChars cs with
      | none => none
      | some (out, rest) => some (c :: out, rest)
termination_by structural cs => cs

/-- Leading decimal digits of the input. -/
def takeDigits : List Char → (List Char × List Char)
  | [] => ([], [])
  | c :: cs =>
    if c.isDigit then
      let (ds, rest) := takeDigits cs
      (c :: ds, rest)
    else ([], c :: cs)

/-- Natural number denoted by a digit list. -/
def digitsToNat (ds : List Char) : Nat :=
  ds.foldl (fun n d => n * 10 + (d.toNat - 48)) 0

mutual

/-- Parse one JSON value (fuel-indexed recursion). -/
def parseVal : Nat → List Char → Option (Json × List Char)
  | 0, _ => none
  | fuel + 1, cs =>
    match skipWs cs with
    | [] => none
    | c :: rest =>
      if c = dquote then
        match parseStringChars rest with
        | some (out, r) => some (.str ⟨out⟩, r)
        | none => none
      else if c = lbrace then parseMembers fuel (skipWs rest)
      else if c = '[' then parseElems fuel (skipWs rest)
      else if c = 't' then
        match rest with
        | 'r' :: 'u' :: 'e' :: r => some (.bool true, r)
        | _ => none
      else if c = 'f' then
        match rest with
        | 'a' :: 'l' :: 's' :: 'e' :: r => some (.bool false, r)
        | _ => none
      else if c = 'n' then
        match rest with
        | 'u' :: 'l' :: 'l' :: r => some (.null, r)
        | _ => none
      else if c = '-' then
        match takeDigits rest with
        | ([], _) => none
        | (ds, r) => some (.num (-(digitsToNat ds : Int)), r)
      else if c.isDigit then
        match takeDigits (c :: rest) with
        | ([], _) => none
        | (ds, r) => some (.num (digitsToNat ds), r)
      else none

/-- Parse the members of a JSON object (input starts after the opening
brace, whitespace already skipped). -/
def parseMembers : Nat → List Char → Option (Json × List Char)
  | 0, _ => none
  | fuel + 1, cs =>
    match cs with
    | [] => none
    | c :: rest =>
      if c = rbrace then some (.obj [], rest)
      else if c = dquote then
        match parseStringChars rest with
        | none => none
        | some (key, r1) =>
          match skipWs r1 with
          | ':' :: r2 =>
            match parseVal fuel r2 with
            | none => none
            | some (v, r3) =>
              match skipWs r3 with
              | ',' :: r4 =>
                match parseMembers fuel (skipWs r4) with
                | some (.obj kvs, r5) => some (.obj ((⟨key⟩, v) :: kvs), r5)
                | _ => none
              | c2 :: r4 =>
                if c2 = rbrace then some (.obj [(⟨key⟩, v)], r4) else none
              | [] => none
          | _ => none
      else none

/-- Parse the elements of a JSON array (input starts after the opening
bracket, whitespace already skipped). -/
def parseElems : Nat → List Char → Option (Json × List Char)
  | 0, _ => none
  | fuel + 1, cs =>
    match cs with
    | [] => none
    | c :: rest =>
      if c = ']' then some (.arr [], rest)
      else
        match parseVal fuel cs with
        | none => none
        | some (v, r1) =>
          match skipWs r1 with
          | ',' :: r2 =>
            match parseElems fuel (skipWs r2) with
            | some (.arr vs, r3) => some (.arr (v :: vs), r3)
            | _ => none
          | ']' :: r2 => some (.arr [v], r2)
          | _ => none

end

/-- Model of Python `json.loads`: parse the whole text as one JSON value,
failing when the raw text is not parseable as structured data. -/
def json_loads (s : String) : Except String Json :=
  match parseVal (s.length + 1) s.data with
  | some (v, rest) =>
    if (skipWs rest).isEmpty then .ok v
    else .error ("Extra data: " ++ s)
  | none => .error ("Expecting value: " ++ s)

/-- Escape one character the way Python `repr` renders it inside a
string literal with quote character `q`. -/
def pyEscChar (q : Char) (c : Char) : String :=
  if c = '\\' then "\\\\"
  else if c = q then "\\" ++ ⟨[q]⟩
  else if c = '\n' then "\\n"
  else if c = '\r' then "\\r"
  else if c = '\t' then "\\t"
  else ⟨[c]⟩

/-- Python `repr` of a text value: single-quoted unless the text holds a
single quote and no double quote. -/
def pyStrQuote (s : String) : String :=
  let q : Char := if s.data.contains squote ∧ ¬ s.data.contains dquote then dquote else squote
  ⟨[q]⟩ ++ strJoin (s.data.map (pyEscChar q)) ++ ⟨[q]⟩
where
  /-- Concatenate a list of strings. -/
  strJoin : List String → String
    | [] => ""
    | s :: rest => s ++ strJoin rest

mutual

/-- Python `repr` of a decoded JSON value (`None`, `True`, decimal
integers, quoted text, bracketed lists, braced dicts). -/
def pyRepr : Json → String
  | .null => "None"
  | .bool true => "True"
  | .bool false => "False"
  | .num n => toString n
  | .str s => pyStrQuote s
  | .arr xs => "[" ++ pyReprList xs ++ "]"
  | .obj kvs => "\x7b" ++ pyReprFields kvs ++ "\x7d"

/-- Comma-separated `repr` of list elements. -/
def pyReprList : List Json → String
  | [] => ""
  | [x] => pyRepr x
  | x :: y :: xs => pyRepr x ++ ", " ++ pyReprList (y :: xs)

/-- Comma-separated `repr` of dict entries. -/
def pyReprFields : List (String × Json) → String
  | [] => ""
  | [(k, v)] => pyStrQuote k ++ ": " ++ pyRepr v
  | (k, v) :: kv :: kvs => pyStrQuote k ++ ": " ++ pyRepr v ++ ", " ++ pyReprFields (kv :: kvs)

end

/-- Python `str(...)` as used by f-string interpolation: text values
render as themselves, everything else as its `repr`. -/
def pyStr (j : Json) : String :=
  match j with
  | .str s => s
  | j => pyRepr j

/-- Python truthiness (`bool(...)`) of a decoded JSON value. -/
def pyTruthy : Json → Bool
  | .null => false
  | .bool b => b
  | .num n => n ≠ 0
  | .str s => ¬ s.isEmpty
  | .arr xs => ¬ xs.isEmpty
  | .obj kvs => ¬ kvs.isEmpty

/-- Lookup in a decoded JSON object; a duplicated key keeps the last
value, as Python's `json.loads` does. -/
def jlookup (kvs : List (String × Json)) (k : String) : Option Json :=
  kvs.foldl (fun acc kv => if kv.1 = k then some kv.2 else acc) none

/-- Python `x.get(key, default)`: succeeds exactly when `x` is a dict,
otherwise raises `AttributeError` (represented as an error value). -/
def pyGet (j : Json) (k : String) (d : Json) : Except String Json :=
  match j with
  | .obj kvs => .ok ((jlookup kvs k).getD d)
  | _ => .error "AttributeError: object has no attribute get"

/-- Keys of a decoded JSON object in first-occurrence order (iteration
order of the corresponding Python dict). -/
def keysDedup : List (String × Json) → List String → List String
  | [], _ => []
  | (k, _) :: rest, seen =>
    if k ∈ seen then keysDedup rest seen
    else k :: keysDedup rest (k :: seen)

/-- Python `for c in x`: lists yield their elements, text yields its
characters, dicts yield their keys; other values raise `TypeError`. -/
def pyIter : Json → Except String (List Json)
  | .arr xs => .ok xs
  | .str s => .ok (s.data.map (fun c => .str ⟨[c]⟩))
  | .obj kvs => .ok ((keysDedup kvs []).map Json.str)
  | _ => .error "TypeError: object is not iterable"

/-- Concatenation of a list of output lines (what `f.writelines` writes). -/
def strConcat : List String → String
  | [] => ""
  | s :: rest => s ++ strConcat rest

/-- One rendered check line of the report block, mirroring
`ok = bool(c.get("ok")); nm = c.get("name", ""); det = c.get("details", "")`
and the f-string `  - [marker] nm — det`. -/
def formatCheckLine (c : Json) : Except String String :=
  match pyGet c "ok" .null with
  | .error e => .error e
  | .ok okv =>
    match pyGet c "name" (.str "") with
    | .error e => .error e
    | .ok nm =>
      match pyGet c "details" (.str "") with
      | .error e => .error e
      | .ok det =>
        .ok ("  - [" ++ (if pyTruthy okv then "✓" else "✗") ++ "] "
             ++ pyStr nm ++ " — " ++ pyStr det ++ "\n")

/-- Render every check of the loop `for c in checks`, stopping at the
first raised error. -/
def checkLinesE : List Json → Except String (List String)
  | [] => .ok []
  | c :: cs =>
    match formatCheckLine c with
    | .error e => .error e
    | .ok l =>
      match checkLinesE cs with
      | .error e => .error e
      | .ok ls => .ok (l :: ls)

/-- The full markdown block written for one ingestion: heading, When,
URL, Title, Checks list and trailing separator, in the source's order. -/
def blockText (test_name status now url title : String) (checkLines : List String) : String :=
  "## " ++ test_name ++ " — " ++ status ++ "\n"
  ++ "- When: " ++ now ++ "\n"
  ++ "- URL: " ++ url ++ "\n"
  ++ "- Title: " ++ title ++ "\n"
  ++ "- Checks:\n"
  ++ strConcat checkLines
  ++ "\n---\n\n"

/-- Decoding and formatting steps of `write_report` after a successful
`json.loads`, with every Python-level exception carried as an error. -/
def buildBlockE (test_name now : String) (obj : Json) : Except String String :=
  match pyGet obj "status" (.str "UNKNOWN") with
  | .error e => .error e
  | .ok status =>
    match pyGet obj "checks" (.arr []) with
    | .error e => .error e
    | .ok checks =>
      match pyGet obj "artifacts" (.obj []) with
      | .error e => .error e
      | .ok artifacts =>
        match pyGet artifacts "url" (.str "") with
        | .error e => .error e
        | .ok url =>
          match pyGet artifacts "title" (.str "") with
          | .error e => .error e
          | .ok title =>
            match pyIter checks with
            | .error e => .error e
            | .ok cs =>
              match checkLinesE cs with
              | .error e => .error e
              | .ok checkLines =>
                .ok (blockText test_name (pyStr status) now (pyStr url) (pyStr title) checkLines)

/-- Association-list lookup by path. -/
def lookupA {α : Type} : List (String × α) → String → Option α
  | [], _ => none
  | (k2, v) :: rest, k => if k2 = k then some v else lookupA rest k

/-- Association-list update by path (insert or overwrite). -/
def setA {α : Type} : List (String × α) → String → α → List (String × α)
  | [], k, v => [(k, v)]
  | (k2, v2) :: rest, k, v =>
    if k2 = k then (k, v) :: rest else (k2, v2) :: setA rest k v

/-- Explicit filesystem state: file contents, file modification times,
existing directories, and the set of paths whose `open` raises an
I/O error (modelling permission/disk failures). -/
structure FS where
  files : List (String × String)
  mtimes : List (String × String)
  dirs : List String
  failing : List String
deriving Repr, DecidableEq

/-- Content of the file at a path, when it exists. -/
def readFile (fs : FS) (p : String) : Option String :=
  lookupA fs.files p

/-- Python `os.path.exists` on a file path. -/
def fileExists (fs : FS) (p : String) : Bool :=
  (readFile fs p).isSome

/-- Write (create or truncate) a file, also setting its mtime. -/
def fsWrite (fs : FS) (p content now : String) : FS :=
  { fs with files := setA fs.files p content, mtimes := setA fs.mtimes p now }

/-- Open in append mode and write: the new content is the old content
(empty for a fresh file) followed by the appended text. -/
def fsAppend (fs : FS) (p block now : String) : FS :=
  fsWrite fs p ((readFile fs p).getD "" ++ block) now

/-- Python `os.utime(p, times=None)`: refresh the mtime only. -/
def fsTouch (fs : FS) (p now : String) : FS :=
  { fs with mtimes := setA fs.mtimes p now }

/-- Model of `os.path.abspath(os.path.join(os.path.dirname(__file__), ".."))`:
an absolute project-root path. -/
def repo_root : String := "/repo"

/-- POSIX `os.path.join` with a directory prefix. -/
def path_join (a b : String) : String := a ++ "/" ++ b

/-- Default reports directory `<root>/test_reports`. -/
def reports_dir : String := path_join repo_root "test_reports"

/-- Default store path `<root>/test_reports/results.md`. -/
def default_report_path : String := path_join reports_dir "results.md"

/-- Catalog placeholder path `<root>/test_suites.md`. -/
def test_suites_path : String := path_join repo_root "test_suites.md"

/-- POSIX `os.path.isabs`: the path begins with a slash. -/
def isAbsolutePath (p : String) : Bool :=
  match p.data with
  | [] => false
  | c :: _ => c = '/'

/-- Fixed stub content of a freshly created catalog placeholder. -/
def suites_stub : String := "# Generated Test Suites\n\nPlease fill with test cases.\n"

/-- Model of `ensure_reports_dir`: `os.makedirs(path, exist_ok=True)`. -/
def ensure_reports_dir (fs : FS) : FS :=
  if reports_dir ∈ fs.dirs then fs else { fs with dirs := reports_dir :: fs.dirs }

/-- Model of `generate_test_suites_file`: touch the catalog placeholder
when it exists, otherwise create it with the stub content; any raised
error is caught inside the function and turned into a `none` result. -/
def generate_test_suites_file (fs : FS) (now : String) : Option String × FS :=
  let target := test_suites_path
  if fileExists fs target then (some target, fsTouch fs target now)
  else if target ∈ fs.failing then (none, fs)
  else (some target, fsWrite fs target suites_stub now)

/-- Model of `read_latest_report_summary`: `None` when the store file
does not exist, the caught-error text when reading raises, otherwise
the content truncated by the Python slice `[:max_chars]`. -/
def read_latest_report_summary (max_chars : Nat) (fs : FS) : Option String :=
  let rpt := default_report_path
  match readFile fs rpt with
  | none => none
  | some content =>
    if rpt ∈ fs.failing then some "Failed to read report: io error"
    else some ⟨content.data.take max_chars⟩

/-- Structured result dict returned by `write_report`:
`{"ok": True, "path": p}` or `{"ok": False, "error": e}`. -/
inductive WRes where
  | ok (path : String) : WRes
  | err (msg : String) : WRes
deriving Repr, DecidableEq

/-- Model of `write_report`: ensure the reports directory, bootstrap the
catalog placeholder, resolve the store path, parse the verdict, format
the block and append it.  The outer `match`es mirror the `try`/`except`:
any error raised after the directory/catalog side effects returns a
structured failure while keeping those side effects. -/
def write_report (test_name status_json : String) (report_file : Option String)
    (now : String) (fs : FS) : WRes × FS :=
  let fs1 := ensure_reports_dir fs
  let fs2 := (generate_test_suites_file fs1 now).2
  let rf := report_file.getD default_report_path
  match json_loads status_json with
  | .error e => (.err e, fs2)
  | .ok obj =>
    match buildBlockE test_name now obj with
    | .error e => (.err e, fs2)
    | .ok block =>
      if rf ∈ fs2.failing then (.err ("io error: could not open " ++ rf), fs2)
      else (.ok rf, fsAppend fs2 rf block now)

/-- One ingestion call: test name, raw verdict text, optional store-path
override, and the wall-clock timestamp observed during the call. -/
structure Call where
  name : String
  sjson : String
  rfile : Option String
  now : String
deriving Repr, DecidableEq

/-- Run a sequence of ingestion calls, threading the filesystem. -/
def runCalls : List Call → FS → FS
  | [], fs => fs
  | c :: rest, fs => runCalls rest (write_report c.name c.sjson c.rfile c.now fs).2

/-- Results of a sequence of ingestion calls, in call order. -/
def runResults : List Call → FS → List WRes
  | [], _ => []
  | c :: rest, fs =>
    (write_report c.name c.sjson c.rfile c.now fs).1
      :: runResults rest (write_report c.name c.sjson c.rfile c.now fs).2

/-- The block a call appends when it succeeds (empty when it fails). -/
def blockOf (c : Call) : String :=
  match json_loads c.sjson with
  | .error _ => ""
  | .ok obj =>
    match buildBlockE c.name c.now obj with
    | .error _ => ""
    | .ok b => b

set_option maxRecDepth 100000

/-- Filesystem fixture: the empty filesystem. -/
def fsEmpty : FS := ⟨[], [], [], []⟩

/-- Timestamp fixture used by concrete scenarios. -/
def t0 : String := "2024-01-01 00:00:00"

theorem lookupA_setA_self {α : Type} (l : List (String × α)) (k : String) (v : α) :
    lookupA (setA l k v) k = some v := by
  induction l with
  | nil => simp [setA, lookupA]
  | cons kv rest ih =>
    by_cases h : kv.1 = k
    · simp [setA, h, lookupA]
    · simp [setA, h, lookupA, ih]

theorem lookupA_setA_other {α : Type} (l : List (String × α)) (k k2 : String) (v : α)
    (h : k2 ≠ k) : lookupA (setA l k v) k2 = lookupA l k2 := by
  have hne : ¬ (k = k2) := fun hx => h hx.symm
  induction l with
  | nil => simp [setA, lookupA, hne]
  | cons kv rest ih =>
    obtain ⟨k1, v1⟩ := kv
    by_cases hk : k1 = k
    · subst hk
      simp [setA, lookupA, hne]
    · simp [setA, hk, lookupA, ih]

theorem ensure_readFile (fs : FS) (p : String) :
    readFile (ensure_reports_dir fs) p = readFile fs p := by
  simp only [ensure_reports_dir]
  split <;> rfl

theorem ensure_mtimes (fs : FS) : (ensure_reports_dir fs).mtimes = fs.mtimes := by
  simp only [ensure_reports_dir]
  split <;> rfl

theorem ensure_failing (fs : FS) : (ensure_reports_dir fs).failing = fs.failing := by
  simp only [ensure_reports_dir]
  split <;> rfl

theorem ensure_dirs_mem (fs : FS) : reports_dir ∈ (ensure_reports_dir fs).dirs := by
  simp only [ensure_reports_dir]
  split
  · assumption
  · exact List.mem_cons_self _ _

theorem gen_readFile_other (fs : FS) (now p : String) (h : p ≠ test_suites_path) :
    readFile (generate_test_suites_file fs now).2 p = readFile fs p := by
  simp only [generate_test_suites_file]
  split
  · rfl
  · split
    · rfl
    · simp [readFile, fsWrite, lookupA_setA_other _ _ _ _ h]

theorem gen_failing (fs : FS) (now : String) :
    (generate_test_suites_file fs now).2.failing = fs.failing := by
  simp only [generate_test_suites_file]
  split
  · rfl
  · split <;> rfl

theorem gen_dirs (fs : FS) (now : String) :
    (generate_test_suites_file fs now).2.dirs = fs.dirs := by
  simp only [generate_test_suites_file]
  split
  · rfl
  · split <;> rfl

theorem gen_catalog_exists (fs : FS) (now c0 : String)
    (h : readFile fs test_suites_path = some c0) :
    readFile (generate_test_suites_file fs now).2 test_suites_path = some c0
    ∧ lookupA (generate_test_suites_file fs now).2.mtimes test_suites_path = some now := by
  have hex : fileExists fs test_suites_path = true := by
    simp [fileExists, h]
  constructor
  · simpa [generate_test_suites_file, hex, fsTouch, readFile] using h
  · simp [generate_test_suites_file, hex, fsTouch, lookupA_setA_self]

theorem gen_catalog_absent (fs : FS) (now : String)
    (h : readFile fs test_suites_path = none)
    (hf : test_suites_path ∉ fs.failing) :
    readFile (generate_test_suites_file fs now).2 test_suites_path = some suites_stub := by
  have hex : fileExists fs test_suites_path = false := by
    simp [fileExists, h]
  simp [generate_test_suites_file, hex, hf, fsWrite, readFile, lookupA_setA_self]

theorem readFile_fsAppend_self (fs : FS) (p b now : String) :
    readFile (fsAppend fs p b now) p = some ((readFile fs p).getD "" ++ b) := by
  simp [fsAppend, fsWrite, readFile, lookupA_setA_self]

theorem readFile_fsAppend_other (fs : FS) (p b now q : String) (h : q ≠ p) :
    readFile (fsAppend fs p b now) q = readFile fs q := by
  simp [fsAppend, fsWrite, readFile, lookupA_setA_other _ _ _ _ h]

theorem write_report_failing (n s : String) (rfo : Option String) (now : String) (fs : FS) :
    (write_report n s rfo now fs).2.failing = fs.failing := by
  simp only [write_report]
  have h2 : ((generate_test_suites_file (ensure_reports_dir fs) now).2).failing = fs.failing := by
    rw [gen_failing, ensure_failing]
  split
  · exact h2
  · split
    · exact h2
    · split
      · exact h2
      · simp [fsAppend, fsWrite, h2]

/-- Whether a decoded JSON value is a dict. -/
def isObjB : Json → Bool
  | .obj _ => true
  | _ => false

/-- Whether the decoded `checks` value is a list whose members are all
dicts — exactly the shape the ingestion loop consumes without raising. -/
def checksListOk : Json → Bool
  | .arr cs => cs.all isObjB
  | _ => false

/-- Shape condition on a parsed verdict dict under which the ingestion
body raises no error: the (defaulted) `checks` value is a list of dicts
and the (defaulted) `artifacts` value is a dict. -/
def verdictShapeOk (kvs : List (String × Json)) : Bool :=
  checksListOk ((jlookup kvs "checks").getD (.arr []))
    && isObjB ((jlookup kvs "artifacts").getD (.obj []))

theorem formatCheckLine_isOk (c : Json) (h : isObjB c = true) :
    ∃ l, formatCheckLine c = .ok l := by
  cases c <;> simp [isObjB] at h
  exact ⟨_, rfl⟩

theorem checkLinesE_isOk (cs : List Json) (h : ∀ c ∈ cs, isObjB c = true) :
    ∃ ls, checkLinesE cs = .ok ls := by
  induction cs with
  | nil => exact ⟨[], rfl⟩
  | cons c rest ih =>
    obtain ⟨l, hl⟩ := formatCheckLine_isOk c (h c (List.mem_cons_self _ _))
    obtain ⟨ls, hls⟩ := ih (fun x hx => h x (List.mem_cons_of_mem _ hx))
    exact ⟨l :: ls, by simp [checkLinesE, hl, hls]⟩

theorem buildBlockE_isOk (n now : String) (kvs : List (String × Json))
    (h : verdictShapeOk kvs = true) :
    ∃ b, buildBlockE n now (.obj kvs) = .ok b := by
  simp only [verdictShapeOk, Bool.and_eq_true] at h
  obtain ⟨hc, ha⟩ := h
  cases hck : (jlookup kvs "checks").getD (.arr []) <;>
    rw [hck] at hc <;> simp only [checksListOk] at hc <;> try simp at hc
  case arr cs =>
  cases hak : (jlookup kvs "artifacts").getD (.obj []) <;>
    rw [hak] at ha <;> simp only [isObjB] at ha <;> try simp at ha
  case obj akvs =>
  obtain ⟨ls, hls⟩ := checkLinesE_isOk cs (by simpa [List.all_eq_true] using hc)
  refine ⟨blockText n (pyStr ((jlookup kvs "status").getD (.str "UNKNOWN"))) now
    (pyStr ((jlookup akvs "url").getD (.str "")))
    (pyStr ((jlookup akvs "title").getD (.str ""))) ls, ?_⟩
  simp [buildBlockE, pyGet, hck, hak, pyIter, hls]

theorem write_report_ok_spec (n s : String) (rfo : Option String) (now : String) (fs : FS) (p : String)
    (h : (write_report n s rfo now fs).1 = .ok p) :
    p = rfo.getD default_report_path ∧
    (rfo.getD default_report_path ≠ test_suites_path →
      readFile (write_report n s rfo now fs).2 (rfo.getD default_report_path)
        = some ((readFile fs (rfo.getD default_report_path)).getD ""
            ++ blockOf ⟨n, s, rfo, now⟩)) := by
  simp only [write_report] at h ⊢
  split at h
  next e heq => exact absurd h (by simp)
  next obj heq =>
    split at h
    next e heqb => exact absurd h (by simp)
    next block heqb =>
      split at h
      next hf => exact absurd h (by simp)
      next hf =>
        have hp : p = rfo.getD default_report_path := by
          have := h
          simp at this
          exact this.symm
        refine ⟨hp, fun hne => ?_⟩
        rw [if_neg hf]
        rw [readFile_fsAppend_self]
        rw [gen_readFile_other _ _ _ hne, ensure_readFile]
        simp [blockOf, heq, heqb]

theorem runCalls_app (l1 l2 : List Call) (fs : FS) :
    runCalls (l1 ++ l2) fs = runCalls l2 (runCalls l1 fs) := by
  induction l1 generalizing fs with
  | nil => rfl
  | cons c rest ih => simp [runCalls, ih]

theorem runResults_app (l1 l2 : List Call) (fs : FS) :
    runResults (l1 ++ l2) fs = runResults l1 fs ++ runResults l2 (runCalls l1 fs) := by
  induction l1 generalizing fs with
  | nil => rfl
  | cons c rest ih => simp [runResults, runCalls, ih]

theorem strConcat_app (l1 l2 : List String) :
    strConcat (l1 ++ l2) = strConcat l1 ++ strConcat l2 := by
  induction l1 with
  | nil => simp [strConcat]
  | cons s rest ih => simp [strConcat, ih, String.append_assoc]

theorem runCalls_content (calls : List Call) :
    ∀ fs : FS, (∀ c ∈ calls, c.rfile = none) →
      (∀ r ∈ runResults calls fs, ∃ p, r = .ok p) →
      (readFile (runCalls calls fs) default_report_path).getD ""
          = (readFile fs default_report_path).getD "" ++ strConcat (calls.map blockOf)
      ∧ (calls ≠ [] → (readFile (runCalls calls fs) default_report_path).isSome = true) := by
  induction calls with
  | nil =>
    intro fs _ _
    exact ⟨by simp [runCalls, strConcat], fun h => absurd rfl h⟩
  | cons c rest ih =>
    intro fs hrf hok
    obtain ⟨cn, cjs, cr, ct⟩ := c
    have hcr : cr = none := hrf _ (List.mem_cons_self _ _)
    subst hcr
    obtain ⟨p, hp⟩ := hok ((write_report cn cjs none ct fs).1) (by simp [runResults])
    have hspec := write_report_ok_spec cn cjs none ct fs p hp
    have hne : (none : Option String).getD default_report_path ≠ test_suites_path := by decide
    have hread := hspec.2 hne
    simp only [Option.getD_none] at hread
    have hrun : runCalls (⟨cn, cjs, none, ct⟩ :: rest) fs
        = runCalls rest (write_report cn cjs none ct fs).2 := rfl
    have ihres := ih (write_report cn cjs none ct fs).2
      (fun x hx => hrf x (List.mem_cons_of_mem _ hx))
      (fun r hr => hok r (by simp only [runResults]; exact List.mem_cons_of_mem _ hr))
    constructor
    · rw [hrun, ihres.1, hread]
      simp [strConcat, String.append_assoc]
    · intro _
      rw [hrun]
      cases hrest : rest with
      | nil => simp [runCalls, hread]
      | cons d ds =>
        rw [hrest] at ihres
        have h2 := ihres.2 (by simp)
        simpa [hrest] using h2

theorem write_catalog_preserved (n s : String) (rfo : Option String) (now : String)
    (fs : FS) (c0 : String)
    (hex : readFile fs test_suites_path = some c0)
    (hrp : rfo.getD default_report_path ≠ test_suites_path) :
    readFile (write_report n s rfo now fs).2 test_suites_path = some c0
    ∧ lookupA (write_report n s rfo now fs).2.mtimes test_suites_path = some now := by
  have hex1 : readFile (ensure_reports_dir fs) test_suites_path = some c0 := by
    rw [ensure_readFile]
    exact hex
  have hgen := gen_catalog_exists (ensure_reports_dir fs) now c0 hex1
  have hne : test_suites_path ≠ rfo.getD default_report_path := fun hx => hrp hx.symm
  simp only [write_report]
  split
  · exact hgen
  · split
    · exact hgen
    · split
      · exact hgen
      · constructor
        · rw [readFile_fsAppend_other _ _ _ _ _ hne]
          exact hgen.1
        · simp only [fsAppend, fsWrite]
          rw [lookupA_setA_other _ _ _ _ hne]
          exact hgen.2

theorem write_catalog_created (n s : String) (rfo : Option String) (now : String) (fs : FS)
    (hab : readFile fs test_suites_path = none)
    (hcf : test_suites_path ∉ fs.failing)
    (hrp : rfo.getD default_report_path ≠ test_suites_path) :
    readFile (write_report n s rfo now fs).2 test_suites_path = some suites_stub := by
  have hab1 : readFile (ensure_reports_dir fs) test_suites_path = none := by
    rw [ensure_readFile]
    exact hab
  have hcf1 : test_suites_path ∉ (ensure_reports_dir fs).failing := by
    rw [ensure_failing]
    exact hcf
  have hgen := gen_catalog_absent (ensure_reports_dir fs) now hab1 hcf1
  have hne : test_suites_path ≠ rfo.getD default_report_path := fun hx => hrp hx.symm
  simp only [write_report]
  split
  · exact hgen
  · split
    · exact hgen
    · split
      · exact hgen
      · rw [readFile_fsAppend_other _ _ _ _ _ hne]
        exact hgen

theorem write_report_dirs (n s : String) (rfo : Option String) (now : String) (fs : FS) :
    reports_dir ∈ (write_report n s rfo now fs).2.dirs := by
  have h1 : reports_dir ∈ ((generate_test_suites_file (ensure_reports_dir fs) now).2).dirs := by
    rw [gen_dirs]
    exact ensure_dirs_mem fs
  simp only [write_report]
  split
  · exact h1
  · split
    · exact h1
    · split
      · exact h1
      · simpa [fsAppend, fsWrite] using h1

theorem write_report_parse_error (n s : String) (rfo : Option String) (now : String)
    (fs : FS) (e : String) (hparse : json_loads s = .error e) :
    (write_report n s rfo now fs).1 = .err e
    ∧ (write_report n s rfo now fs).2
        = (generate_test_suites_file (ensure_reports_dir fs) now).2 := by
  simp [write_report, hparse]

/-- Claim C1 counterexample: the raw text `[]` is parseable as structured
data (valid JSON), yet the ingestion operation returns a failure result,
because the source immediately calls `.get` on the parsed value and a
Python list has no `get` attribute.  This refutes "the ingestion
operation succeeds for every parseable input" and the "if and only if"
characterisation of failures. -/
theorem claim_C1_counterexample :
    json_loads "[]" = .ok (.arr [])
    ∧ (write_report "T" "[]" none t0 fsEmpty).1
        = .err "AttributeError: object has no attribute get" := by
  constructor
  · rfl
  · decide

/-- Claim C1 (amended): when the raw text parses to a JSON object whose
decoded `checks` value (defaulted to `[]`) is a list of objects and whose
decoded `artifacts` value (defaulted to `{}`) is an object, and the store
write itself does not fail, ingestion succeeds; deviations inside that
shape (missing optional fields, unknown status strings, extra keys) are
absorbed by defaults.  Raw text that cannot be parsed at all always
yields a failure result. -/
theorem claim_C1_amended (name s now : String) (rfo : Option String) (fs : FS) :
    (rfo.getD default_report_path ∉ fs.failing →
      ∀ kvs, json_loads s = .ok (.obj kvs) → verdictShapeOk kvs = true →
        ∃ p, (write_report name s rfo now fs).1 = .ok p) ∧
    (∀ e, json_loads s = .error e → (write_report name s rfo now fs).1 = .err e) := by
  constructor
  · intro hnf kvs hp hshape
    obtain ⟨b, hb⟩ := buildBlockE_isOk name now kvs hshape
    have hff : rfo.getD default_report_path
        ∉ ((generate_test_suites_file (ensure_reports_dir fs) now).2).failing := by
      rw [gen_failing, ensure_failing]
      exact hnf
    refine ⟨rfo.getD default_report_path, ?_⟩
    simp [write_report, hp, hb, hff]
  · intro e he
    exact (write_report_parse_error name s rfo now fs e he).1

/-- Claim C1 witness: ingesting the well-shaped verdict text of an empty
JSON object succeeds on an empty filesystem. -/
theorem claim_C1_witness :
    ∃ p, (write_report "T" "\x7b\x7d" none t0 fsEmpty).1 = .ok p :=
  (claim_C1_amended "T" "\x7b\x7d" t0 none fsEmpty).1 (by decide) [] (by rfl) (by decide)

/-- Claim C2 counterexample: ingesting a verdict whose `status` field
holds the unrecognized value `MAYBE` renders `MAYBE` in the block
heading, not `UNKNOWN`: the code forwards any present status value
verbatim instead of decoding unrecognized values to `UNKNOWN`. -/
theorem claim_C2_counterexample :
    readFile (write_report "T" "\x7b\"status\":\"MAYBE\"\x7d" none t0 fsEmpty).2
        default_report_path
      = some "## T — MAYBE\n- When: 2024-01-01 00:00:00\n- URL: \n- Title: \n- Checks:\n\n---\n\n"
    ∧ ("MAYBE" ≠ "PASS" ∧ "MAYBE" ≠ "FAIL" ∧ "MAYBE" ≠ "UNKNOWN") := by
  constructor
  · decide
  · decide

/-- Claim C2 (amended): the status rendered in the report block's heading
is the string rendering of the verdict's `status` value whenever the
field is present — whatever that value is — and is `UNKNOWN` exactly
when the field is absent (the `.get` default). -/
theorem claim_C2_amended (name now : String) (kvs : List (String × Json)) (block : String)
    (h : buildBlockE name now (.obj kvs) = .ok block) :
    (∃ url title checkLines,
        block = blockText name (pyStr ((jlookup kvs "status").getD (.str "UNKNOWN")))
          now url title checkLines)
    ∧ (jlookup kvs "status" = none →
        pyStr ((jlookup kvs "status").getD (.str "UNKNOWN")) = "UNKNOWN") := by
  constructor
  · simp only [buildBlockE, pyGet] at h
    split at h
    next => exact absurd h (by simp)
    next url hu =>
      split at h
      next => exact absurd h (by simp)
      next title ht =>
        split at h
        next => exact absurd h (by simp)
        next cs hi =>
          split at h
          next => exact absurd h (by simp)
          next ls hl =>
            simp only [Except.ok.injEq] at h
            exact ⟨pyStr url, pyStr title, ls, h.symm⟩
  · intro h0
    simp [h0, pyStr]

/-- Claim C2 witness: an object with no `status` field produces a block
whose heading status is `UNKNOWN`. -/
theorem claim_C2_witness :
    (∃ url title checkLines,
        "## T — UNKNOWN\n- When: 2024-01-01 00:00:00\n- URL: \n- Title: \n- Checks:\n\n---\n\n"
          = blockText "T" (pyStr ((jlookup [] "status").getD (.str "UNKNOWN")))
              t0 url title checkLines)
    ∧ (jlookup [] "status" = none →
        pyStr ((jlookup [] "status").getD (.str "UNKNOWN")) = "UNKNOWN") :=
  claim_C2_amended "T" t0 []
    "## T — UNKNOWN\n- When: 2024-01-01 00:00:00\n- URL: \n- Title: \n- Checks:\n\n---\n\n"
    (by rfl)

/-- Claim C3: starting from a filesystem without the store file, after a
non-empty sequence of ingestion calls on the default store path that all
return a success result, the store file's content is exactly the
concatenation of the formatted report blocks in call order; moreover the
content reached after any earlier sub-sequence of those calls is a
prefix of the final content, so no block written by an earlier call is
altered by a later call. -/
theorem claim_C3 (calls : List Call) (fs : FS)
    (hnil : calls ≠ [])
    (hdef : ∀ c ∈ calls, c.rfile = none)
    (h0 : readFile fs default_report_path = none)
    (hok : ∀ r ∈ runResults calls fs, ∃ p, r = .ok p) :
    readFile (runCalls calls fs) default_report_path
      = some (strConcat (calls.map blockOf))
    ∧ (∀ l1 l2, calls = l1 ++ l2 →
        ∃ t, (readFile (runCalls l1 fs) default_report_path).getD "" ++ t
          = strConcat (calls.map blockOf)) := by
  have hmain := runCalls_content calls fs hdef hok
  have hcontent : (readFile (runCalls calls fs) default_report_path).getD ""
      = strConcat (calls.map blockOf) := by
    rw [hmain.1, h0]
    simp
  have hsome := hmain.2 hnil
  constructor
  · cases hread : readFile (runCalls calls fs) default_report_path with
    | none => rw [hread] at hsome; simp at hsome
    | some v =>
      rw [hread] at hcontent
      simp at hcontent
      rw [hcontent]
  · intro l1 l2 hsplit
    subst hsplit
    have hok1 : ∀ r ∈ runResults l1 fs, ∃ p, r = .ok p := by
      intro r hr
      exact hok r (by rw [runResults_app]; exact List.mem_append_left _ hr)
    have h1 := runCalls_content l1 fs
      (fun c hc => hdef c (List.mem_append_left _ hc)) hok1
    refine ⟨strConcat (l2.map blockOf), ?_⟩
    rw [h1.1, h0]
    simp only [Option.getD_none, String.empty_append]
    rw [List.map_append, strConcat_app]

/-- Claim C3 witness: one successful ingestion of the empty-object
verdict on an empty filesystem leaves the store holding exactly that
call's block. -/
theorem claim_C3_witness :
    readFile (runCalls [⟨"T", "\x7b\x7d", none, t0⟩] fsEmpty) default_report_path
      = some (strConcat (([⟨"T", "\x7b\x7d", none, t0⟩] : List Call).map blockOf)) :=
  (claim_C3 [⟨"T", "\x7b\x7d", none, t0⟩] fsEmpty (by decide)
    (by intro c hc; simp at hc; rw [hc])
    (by decide)
    (by
      intro r hr
      simp only [runResults] at hr
      rw [List.mem_singleton] at hr
      exact ⟨default_report_path, by rw [hr]; decide⟩)).1

/-- Claim C4 counterexample: a call with unparseable verdict text whose
report-path override happens to equal the catalog placeholder path does
create the file at the store path (the catalog bootstrap runs before the
parse step and writes the stub there), refuting "the store file is not
created if it did not already exist" as universally stated over calls. -/
theorem claim_C4_counterexample :
    (write_report "T" "\x7bnot json" (some test_suites_path) t0 fsEmpty).1
      = .err "Expecting value: \x7bnot json"
    ∧ readFile fsEmpty test_suites_path = none
    ∧ readFile (write_report "T" "\x7bnot json" (some test_suites_path) t0 fsEmpty).2
        test_suites_path = some suites_stub := by
  refine ⟨?_, ?_, ?_⟩ <;> decide

/-- Claim C4 (amended): for every call whose raw verdict text is not
parseable and whose store path is not the catalog placeholder path, the
result is a failure carrying the parse error and the store file is left
unchanged — not created when absent, unmodified when present. -/
theorem claim_C4_amended (n s : String) (rfo : Option String) (now : String) (fs : FS)
    (e : String)
    (hparse : json_loads s = .error e)
    (hrp : rfo.getD default_report_path ≠ test_suites_path) :
    (write_report n s rfo now fs).1 = .err e
    ∧ readFile (write_report n s rfo now fs).2 (rfo.getD default_report_path)
        = readFile fs (rfo.getD default_report_path) := by
  obtain ⟨h1, h2⟩ := write_report_parse_error n s rfo now fs e hparse
  refine ⟨h1, ?_⟩
  rw [h2, gen_readFile_other _ _ _ hrp, ensure_readFile]

/-- Claim C4 witness: ingesting the unparseable text on the default path
over an empty filesystem fails and leaves the store file non-existent. -/
theorem claim_C4_witness :
    (write_report "T" "\x7bnot json" none t0 fsEmpty).1 = .err "Expecting value: \x7bnot json"
    ∧ readFile (write_report "T" "\x7bnot json" none t0 fsEmpty).2 default_report_path
        = readFile fsEmpty default_report_path :=
  claim_C4_amended "T" "\x7bnot json" none t0 fsEmpty "Expecting value: \x7bnot json"
    (by rfl) (by decide)

/-- Claim C5: the ingestion operation is total and always returns a
structured result — for every input and every filesystem state
(including states where the store write raises), the outcome is either a
success carrying a path or a failure carrying an error description;
every modelled exception is absorbed by the outer handler. -/
theorem claim_C5 (n s : String) (rfo : Option String) (now : String) (fs : FS) :
    (∃ p, (write_report n s rfo now fs).1 = .ok p)
    ∨ (∃ m, (write_report n s rfo now fs).1 = .err m) := by
  cases h : (write_report n s rfo now fs).1 with
  | ok p => exact Or.inl ⟨p, rfl⟩
  | err m => exact Or.inr ⟨m, rfl⟩

/-- Verdict text of the concrete Flipkart scenario. -/
def flipJson : String :=
  "\x7b\"status\":\"PASS\",\"checks\":[\x7b\"name\":\"cart count\",\"ok\":true,\"details\":\"1 item\"\x7d],\"artifacts\":\x7b\"url\":\"https://flipkart.com\",\"title\":\"Flipkart\"\x7d\x7d"

/-- Claim C6: ingesting the Flipkart verdict appends the exact block
with heading `## Flipkart Add To Cart — PASS`, the single check line
`  - [✓] cart count — 1 item`, and the trailing separator, with the
fields in the fixed order heading, When, URL, Title, Checks, separator,
and returns a success result carrying the path; and in every rendered
check line the marker is `✓` exactly when the check's `ok` value is
truthy and `✗` otherwise. -/
theorem claim_C6 :
    ((write_report "Flipkart Add To Cart" flipJson none t0 fsEmpty).1
        = .ok default_report_path
      ∧ readFile (write_report "Flipkart Add To Cart" flipJson none t0 fsEmpty).2
          default_report_path
        = some ("## Flipkart Add To Cart — PASS\n- When: 2024-01-01 00:00:00\n- URL: https://flipkart.com\n- Title: Flipkart\n- Checks:\n  - [✓] cart count — 1 item\n\n---\n\n"))
    ∧ (∀ kvs : List (String × Json),
        formatCheckLine (.obj kvs)
          = .ok ("  - [" ++ (if pyTruthy ((jlookup kvs "ok").getD .null) then "✓" else "✗")
              ++ "] " ++ pyStr ((jlookup kvs "name").getD (.str "")) ++ " — "
              ++ pyStr ((jlookup kvs "details").getD (.str "")) ++ "\n")) := by
  refine ⟨⟨?_, ?_⟩, fun kvs => rfl⟩
  · decide
  · decide

/-- Claim C7: with the store path readable, the Report Reader returns
exactly the first `k` characters of the store's current full content —
a prefix of the content whose length is the minimum of `k` and the
content length — and returns an absent value, not an error, when the
store file does not exist. -/
theorem claim_C7 (k : Nat) (fs : FS)
    (hnf : default_report_path ∉ fs.failing) :
    (readFile fs default_report_path = none → read_latest_report_summary k fs = none)
    ∧ (∀ c, readFile fs default_report_path = some c →
        read_latest_report_summary k fs = some (⟨c.data.take k⟩ : String)
        ∧ (c.data.take k).length = min k c.data.length
        ∧ ∃ t, c.data.take k ++ t = c.data) := by
  constructor
  · intro h
    simp [read_latest_report_summary, h]
  · intro c hc
    refine ⟨?_, ?_, ?_⟩
    · simp [read_latest_report_summary, hc, hnf]
    · exact List.length_take _ _
    · exact ⟨c.data.drop k, List.take_append_drop k c.data⟩

/-- Filesystem fixture for the Report Reader witness: a store holding
eight characters. -/
def fsC7 : FS := ⟨[(default_report_path, "abcdefgh")], [], [], []⟩

/-- Claim C7 witness: reading with a bound of five characters from an
eight-character store returns the first five characters. -/
theorem claim_C7_witness :
    read_latest_report_summary 5 fsC7 = some "abcde" :=
  ((claim_C7 5 fsC7 (by decide)).2 "abcdefgh" (by decide)).1

/-- Filesystem fixture in which the catalog placeholder already exists
with the stub content. -/
def fsCat : FS := ⟨[(test_suites_path, suites_stub)], [], [], []⟩

/-- Claim C8 counterexample: with the catalog placeholder already
existing, one run of the ingestion path whose report-path override
equals the catalog path appends the report block to the catalog file,
altering its content — refuting "never alters the catalog file's
content" as universally stated over ingestion calls. -/
theorem claim_C8_counterexample :
    readFile (write_report "T" "\x7b\x7d" (some test_suites_path) t0 fsCat).2 test_suites_path
      = some (suites_stub
          ++ "## T — UNKNOWN\n- When: 2024-01-01 00:00:00\n- URL: \n- Title: \n- Checks:\n\n---\n\n")
    ∧ suites_stub
          ++ "## T — UNKNOWN\n- When: 2024-01-01 00:00:00\n- URL: \n- Title: \n- Checks:\n\n---\n\n"
        ≠ suites_stub := by
  constructor
  · decide
  · decide

theorem runCalls_catalog_preserved (calls : List Call) :
    ∀ fs c0, readFile fs test_suites_path = some c0 →
      (∀ c ∈ calls, c.rfile.getD default_report_path ≠ test_suites_path) →
      readFile (runCalls calls fs) test_suites_path = some c0 := by
  induction calls with
  | nil => exact fun fs c0 hex _ => hex
  | cons c rest ih =>
    intro fs c0 hex hrp
    have h1 := write_catalog_preserved c.name c.sjson c.rfile c.now fs c0 hex
      (hrp c (List.mem_cons_self _ _))
    exact ih _ c0 h1.1 (fun x hx => hrp x (List.mem_cons_of_mem _ hx))

/-- Claim C8 (amended): whenever the catalog placeholder file already
exists, running the ingestion path any number of further times with
report paths distinct from the catalog path never alters the catalog
file's content, and each such ingestion refreshes the catalog file's
modification time to that call's timestamp. -/
theorem claim_C8_amended (calls : List Call) (fs : FS) (c0 : String)
    (hex : readFile fs test_suites_path = some c0)
    (hrp : ∀ c ∈ calls, c.rfile.getD default_report_path ≠ test_suites_path) :
    readFile (runCalls calls fs) test_suites_path = some c0
    ∧ (∀ n s rfo now, rfo.getD default_report_path ≠ test_suites_path →
        lookupA (write_report n s rfo now fs).2.mtimes test_suites_path = some now) :=
  ⟨runCalls_catalog_preserved calls fs c0 hex hrp,
   fun n s rfo now hne => (write_catalog_preserved n s rfo now fs c0 hex hne).2⟩

/-- Claim C8 witness: with the catalog stub present, one further
default-path ingestion leaves the catalog content unchanged. -/
theorem claim_C8_witness :
    readFile (runCalls [⟨"T", "\x7b\x7d", none, t0⟩] fsCat) test_suites_path
      = some suites_stub :=
  (claim_C8_amended [⟨"T", "\x7b\x7d", none, t0⟩] fsCat suites_stub (by decide)
    (by intro c hc; simp at hc; rw [hc]; decide)).1

/-- Claim C9 counterexample: a successful call that supplies the
relative override `rel.md` returns `rel.md` itself, which is not a
resolved absolute path — the source returns the `report_file` argument
verbatim without resolving it. -/
theorem claim_C9_counterexample :
    (write_report "T" "\x7b\x7d" (some "rel.md") t0 fsEmpty).1 = .ok "rel.md"
    ∧ isAbsolutePath "rel.md" = false := by
  constructor
  · decide
  · decide

/-- Claim C9 (amended): every successful ingestion returns exactly the
store path it wrote to — the override verbatim when one is supplied,
otherwise the default path, which is absolute; the returned path is not
resolved, so a relative override is returned relative. -/
theorem claim_C9_amended (n s : String) (rfo : Option String) (now : String) (fs : FS)
    (p : String)
    (h : (write_report n s rfo now fs).1 = .ok p) :
    p = rfo.getD default_report_path
    ∧ (rfo = none → isAbsolutePath p = true)
    ∧ (rfo.getD default_report_path ≠ test_suites_path →
        readFile (write_report n s rfo now fs).2 p
          = some ((readFile fs p).getD "" ++ blockOf ⟨n, s, rfo, now⟩)) := by
  obtain ⟨hp, hread⟩ := write_report_ok_spec n s rfo now fs p h
  subst hp
  exact ⟨rfl, fun h0 => by rw [h0]; decide, hread⟩

/-- Claim C9 witness: a successful default-path ingestion returns an
absolute path. -/
theorem claim_C9_witness : isAbsolutePath default_report_path = true :=
  ((claim_C9_amended "T" "\x7b\x7d" none t0 fsEmpty default_report_path (by decide)).2.1) rfl

/-- Claim C10: when ingestion is called with unparseable verdict text
(with the catalog path writable and distinct from the store path), the
result is a failure, yet the reports directory exists afterwards and the
catalog placeholder has been created with the stub (when absent) or kept
with its content and mtime refreshed (when present), because these side
effects precede the parse step; only the store file itself is left
untouched. -/
theorem claim_C10 (n s : String) (rfo : Option String) (now : String) (fs : FS) (e : String)
    (hparse : json_loads s = .error e)
    (hcf : test_suites_path ∉ fs.failing)
    (hrp : rfo.getD default_report_path ≠ test_suites_path) :
    (write_report n s rfo now fs).1 = .err e
    ∧ reports_dir ∈ (write_report n s rfo now fs).2.dirs
    ∧ (readFile fs test_suites_path = none →
        readFile (write_report n s rfo now fs).2 test_suites_path = some suites_stub)
    ∧ (∀ c0, readFile fs test_suites_path = some c0 →
        readFile (write_report n s rfo now fs).2 test_suites_path = some c0
        ∧ lookupA (write_report n s rfo now fs).2.mtimes test_suites_path = some now)
    ∧ readFile (write_report n s rfo now fs).2 (rfo.getD default_report_path)
        = readFile fs (rfo.getD default_report_path) := by
  refine ⟨(write_report_parse_error n s rfo now fs e hparse).1,
    write_report_dirs n s rfo now fs,
    fun hab => write_catalog_created n s rfo now fs hab hcf hrp,
    fun c0 hex => write_catalog_preserved n s rfo now fs c0 hex hrp,
    ?_⟩
  obtain ⟨_, h2⟩ := write_report_parse_error n s rfo now fs e hparse
  rw [h2, gen_readFile_other _ _ _ hrp, ensure_readFile]

/-- Claim C10 witness: the unparseable text on an empty filesystem
yields a failure while the catalog placeholder has been created. -/
theorem claim_C10_witness :
    (write_report "T" "\x7bnot json" none t0 fsEmpty).1 = .err "Expecting value: \x7bnot json"
    ∧ readFile (write_report "T" "\x7bnot json" none t0 fsEmpty).2 test_suites_path
        = some suites_stub :=
  ⟨(claim_C10 "T" "\x7bnot json" none t0 fsEmpty "Expecting value: \x7bnot json"
      (by rfl) (by decide) (by decide)).1,
   (claim_C10 "T" "\x7bnot json" none t0 fsEmpty "Expecting value: \x7bnot json"
      (by rfl) (by decide) (by decide)).2.2.1 (by decide)⟩
